import Mathlib

set_option maxRecDepth 8000

/-!
Shallow embedding of the salmoncow profile/router core.

Source files embedded:
- src/repositories/user-profile-repository.js   (Result type, repository interface)
- src/repositories/local-storage-user-profile-repository.js
- src/types/user-profile.js                     (UserProfile, validation, serialization)
- src/services/user-profile-service.js          (TTL cache, notification list)
- src/modules/ui.js                             (RouterModule)
- src/modules/auth-hint.js                      (AuthHintModule.getHint)

JavaScript runtime primitives are modelled explicitly: Date is a
millisecond count since the Unix epoch, Date.prototype.toISOString and
Date parsing are implemented as executable Gregorian-calendar functions,
localStorage and the Map cache are functions from keys to optional
values, and JSON parsing outcomes are quotiented to an explicit
inductive of parse results where a claim needs them.
-/

namespace Salmoncow

/-- Result type of user-profile-repository.js: success has a data payload,
failure has a message and a machine-readable code. -/
inductive Res (α : Type) where
  | ok (data : α)
  | err (error : String) (code : String)
deriving DecidableEq

/-- success(data) from user-profile-repository.js. -/
def success {α : Type} (data : α) : Res α := Res.ok data

/-- failure(error, code) from user-profile-repository.js; the source
defaults code to UNKNOWN_ERROR when omitted, every call site embedded
here passes it explicitly. -/
def failure {α : Type} (error : String) (code : String) : Res α := Res.err error code

/-- Model of a JavaScript Date: milliseconds since the Unix epoch.
The program only manufactures dates from Date.now() and from parsing
its own ISO output, so the model uses a nonnegative count. -/
structure JSDate where
  ms : Nat
deriving DecidableEq

/-- UserPreferences from user-profile.js: theme is a string in the
source, emailNotifications a boolean. -/
structure Prefs where
  theme : String
  emailNotifications : Bool
deriving DecidableEq

/-- UserProfile from user-profile.js. -/
structure UserProfile where
  uid : String
  email : String
  displayName : String
  photoURL : Option String
  createdAt : JSDate
  updatedAt : JSDate
  preferences : Prefs
deriving DecidableEq

/-- The serialized (storage) form of a profile: identical flat record
except the two timestamps are strings (serializeUserProfile converts
Date fields with toISOString). -/
structure StoredProfile where
  uid : String
  email : String
  displayName : String
  photoURL : Option String
  createdAt : String
  updatedAt : String
  preferences : Prefs
deriving DecidableEq

/-! ### Gregorian calendar model of Date.prototype.toISOString and Date parsing

The JS runtime renders a Date as YYYY-MM-DDTHH:MM:SS.mmmZ (UTC) and
parses that format back. The functions below implement that rendering
for dates from the epoch up to year 9999 (the fixed-width window the
program actually inhabits: every date it creates comes from Date.now()).
-/

/-- Gregorian leap-year test. -/
def isLeap (y : Nat) : Bool := (y % 4 == 0 && y % 100 != 0) || y % 400 == 0

def daysInYear (y : Nat) : Nat := if isLeap y then 366 else 365

/-- Walk forward from a start year consuming whole years from a day
count; fuel-structured so the kernel can evaluate it (fuel at least the
day count suffices, since each step consumes at least 365 days). -/
def yearDoyAux : Nat → Nat → Nat → Nat × Nat
  | 0, y, d => (y, d)
  | fuel+1, y, d => if d < daysInYear y then (y, d) else yearDoyAux fuel (y + 1) (d - daysInYear y)

/-- Year and day-of-year (0-based) of a day count since 1970-01-01. -/
def yearDoy (d : Nat) : Nat × Nat := yearDoyAux d 1970 d

/-- Sum of year lengths for n consecutive years starting at y. -/
def yearsDaysAux : Nat → Nat → Nat
  | 0, _ => 0
  | n+1, y => daysInYear y + yearsDaysAux n (y + 1)

/-- Days from 1970-01-01 to the start of year y (y at least 1970). -/
def daysFromEpochYear (y : Nat) : Nat := yearsDaysAux (y - 1970) 1970

/-- Length of month m (1-based) in a (non-)leap year. -/
def monthLen (leap : Bool) (m : Nat) : Nat :=
  match m with
  | 1 => 31
  | 2 => if leap then 29 else 28
  | 3 => 31
  | 4 => 30
  | 5 => 31
  | 6 => 30
  | 7 => 31
  | 8 => 31
  | 9 => 30
  | 10 => 31
  | 11 => 30
  | 12 => 31
  | _ => 0

/-- Day-of-year offset at which month m (1-based) begins. -/
def monthStart (leap : Bool) (m : Nat) : Nat :=
  let l := if leap then 1 else 0
  match m with
  | 1 => 0
  | 2 => 31
  | 3 => 59 + l
  | 4 => 90 + l
  | 5 => 120 + l
  | 6 => 151 + l
  | 7 => 181 + l
  | 8 => 212 + l
  | 9 => 243 + l
  | 10 => 273 + l
  | 11 => 304 + l
  | 12 => 334 + l
  | _ => 365 + l

/-- Month (1-based) and day-of-month (1-based) from a day-of-year,
walking the month table with explicit fuel. -/
def monthDayAux (leap : Bool) : Nat → Nat → Nat → Nat × Nat
  | 0, m, doy => (m, doy + 1)
  | fuel+1, m, doy =>
    if doy < monthLen leap m then (m, doy + 1) else monthDayAux leap fuel (m + 1) (doy - monthLen leap m)

def monthDay (leap : Bool) (doy : Nat) : Nat × Nat := monthDayAux leap 11 1 doy

/-- Numeric value of a decimal digit character. -/
def digVal (c : Char) : Nat := c.toNat - 48

/-- Two fixed decimal digits. -/
def pad2 (n : Nat) : List Char := [Nat.digitChar (n / 10), Nat.digitChar (n % 10)]

/-- Three fixed decimal digits. -/
def pad3 (n : Nat) : List Char := [Nat.digitChar (n / 100), Nat.digitChar (n / 10 % 10), Nat.digitChar (n % 10)]

/-- Four fixed decimal digits. -/
def pad4 (n : Nat) : List Char :=
  [Nat.digitChar (n / 1000), Nat.digitChar (n / 100 % 10), Nat.digitChar (n / 10 % 10), Nat.digitChar (n % 10)]

/-- Character rendering of toISOString for a millisecond count. -/
def isoChars (ms : Nat) : List Char :=
  let days := ms / 86400000
  let rem := ms % 86400000
  let y := (yearDoy days).1
  let doy := (yearDoy days).2
  let mo := (monthDay (isLeap y) doy).1
  let d := (monthDay (isLeap y) doy).2
  pad4 y ++ '-' :: pad2 mo ++ '-' :: pad2 d ++ 'T' :: pad2 (rem / 3600000) ++
    ':' :: pad2 (rem / 60000 % 60) ++ ':' :: pad2 (rem / 1000 % 60) ++ '.' :: pad3 (rem % 1000) ++ ['Z']

/-- Model of Date.prototype.toISOString. -/
def isoOfMs (ms : Nat) : String := ⟨isoChars ms⟩

/-- Parse the fixed-width ISO rendering back to milliseconds; any other
shape is rejected (new Date(s) would produce an Invalid Date there). -/
def parseIsoChars : List Char → Option Nat
  | [y1, y2, y3, y4, '-', a1, a2, '-', b1, b2, 'T', c1, c2, ':', e1, e2, ':', f1, f2, '.', g1, g2, g3, 'Z'] =>
    if y1.isDigit && y2.isDigit && y3.isDigit && y4.isDigit && a1.isDigit && a2.isDigit &&
        b1.isDigit && b2.isDigit && c1.isDigit && c2.isDigit && e1.isDigit && e2.isDigit &&
        f1.isDigit && f2.isDigit && g1.isDigit && g2.isDigit && g3.isDigit then
      let y := digVal y1 * 1000 + digVal y2 * 100 + digVal y3 * 10 + digVal y4
      let mo := digVal a1 * 10 + digVal a2
      let d := digVal b1 * 10 + digVal b2
      let hh := digVal c1 * 10 + digVal c2
      let mi := digVal e1 * 10 + digVal e2
      let ss := digVal f1 * 10 + digVal f2
      let mmm := digVal g1 * 100 + digVal g2 * 10 + digVal g3
      if 1970 ≤ y ∧ 1 ≤ mo ∧ mo ≤ 12 ∧ 1 ≤ d ∧ d ≤ monthLen (isLeap y) mo ∧ hh < 24 ∧ mi < 60 ∧ ss < 60 then
        some ((daysFromEpochYear y + monthStart (isLeap y) mo + (d - 1)) * 86400000 +
          hh * 3600000 + mi * 60000 + ss * 1000 + mmm)
      else none
    else none
  | _ => none

/-- Model of new Date(string).getTime() on the ISO format. -/
def parseIsoMs (s : String) : Option Nat := parseIsoChars s.data

/-- Calendar year a millisecond count falls in (used to state the
fixed-width window of the ISO model). -/
def msYear (ms : Nat) : Nat := (yearDoy (ms / 86400000)).1

/-! ### user-profile.js -/

/-- DEFAULT_PREFERENCES from user-profile.js. -/
def DEFAULT_PREFERENCES : Prefs := ⟨"system", true⟩

/-- Firebase Auth user as consumed by createUserProfileFromAuth; the
optional fields model properties that may be absent or null, and an
absent or empty uid is the falsy case the service rejects. -/
structure AuthUser where
  uid : String
  email : Option String
  displayName : Option String
  photoURL : Option String
deriving DecidableEq

/-- createUserProfileFromAuth from user-profile.js: one Date.now()
reading (the now argument) feeds both timestamps; email and displayName
default to the empty string, photoURL to null, and a falsy (empty)
photoURL string also collapses to null. -/
def createUserProfileFromAuth (authUser : AuthUser) (now : Nat) : UserProfile :=
  { uid := authUser.uid
    email := authUser.email.getD ""
    displayName := authUser.displayName.getD ""
    photoURL :=
      match authUser.photoURL with
      | some s => if s = "" then none else some s
      | none => none
    createdAt := ⟨now⟩
    updatedAt := ⟨now⟩
    preferences := DEFAULT_PREFERENCES }

/-- Validation outcome record of validateUserProfile. -/
structure ValidationResult where
  valid : Bool
  error : Option String
deriving DecidableEq

/-- validateUserProfile from user-profile.js. In this typed embedding
the object, email-string, displayName-string and preferences-object
checks hold by construction; the only check with content is that uid is
a non-empty string. -/
def validateUserProfile (p : UserProfile) : ValidationResult :=
  if p.uid = "" then ⟨false, some "Profile must have a valid uid"⟩ else ⟨true, none⟩

/-- serializeUserProfile from user-profile.js: both timestamp fields are
Dates in this typed embedding, so the instanceof branch always converts
them with toISOString. -/
def serializeUserProfile (p : UserProfile) : StoredProfile :=
  { uid := p.uid
    email := p.email
    displayName := p.displayName
    photoURL := p.photoURL
    createdAt := isoOfMs p.createdAt.ms
    updatedAt := isoOfMs p.updatedAt.ms
    preferences := p.preferences }

/-- deserializeUserProfile from user-profile.js: new Date(string) on the
stored ISO strings. A string outside the modelled ISO window would be an
Invalid Date in JS; the model collapses that unreachable case to the
epoch. -/
def deserializeUserProfile (sp : StoredProfile) : UserProfile :=
  { uid := sp.uid
    email := sp.email
    displayName := sp.displayName
    photoURL := sp.photoURL
    createdAt := ⟨(parseIsoMs sp.createdAt).getD 0⟩
    updatedAt := ⟨(parseIsoMs sp.updatedAt).getD 0⟩
    preferences := sp.preferences }

/-! ### local-storage-user-profile-repository.js -/

/-- Partial update object accepted by repository update: present fields
overwrite, absent fields keep the existing value (object spread); the
preferences field is itself a partial record, merged key by key. -/
structure PrefUpdates where
  theme : Option String
  emailNotifications : Option Bool
deriving DecidableEq

structure ProfileUpdates where
  uid : Option String
  email : Option String
  displayName : Option String
  photoURL : Option (Option String)
  createdAt : Option JSDate
  preferences : Option PrefUpdates
deriving DecidableEq

/-- localStorage as a key-value map. -/
def Store : Type := String → Option StoredProfile

/-- localStorage.setItem. -/
def storeSet (st : Store) (k : String) (v : StoredProfile) : Store :=
  fun k2 => if k2 = k then some v else st k2

/-- getStorageKey from local-storage-user-profile-repository.js. -/
def storageKey (uid : String) : String := "salmoncow_user_profile_" ++ uid

/-- findById: empty uid fails INVALID_UID, a missing record is
success(null), otherwise the stored record is deserialized. The
JSON.parse of the stored string is modelled as the identity on the
stored record (the repository only ever stores its own stringified
records), so the READ_ERROR catch branch is unreachable here. -/
def repoFindById (st : Store) (uid : String) : Store × Res (Option UserProfile) :=
  if uid = "" then (st, failure "User ID is required" "INVALID_UID")
  else
    match st (storageKey uid) with
    | none => (st, success none)
    | some sp => (st, success (some (deserializeUserProfile sp)))

/-- save: validate, then persist the serialized profile and return the
profile that was passed in. The storage model has no quota, so the
QUOTA_EXCEEDED catch branch is unreachable here. -/
def repoSave (st : Store) (p : UserProfile) : Store × Res UserProfile :=
  let v := validateUserProfile p
  if v.valid then (storeSet st (storageKey p.uid) (serializeUserProfile p), success p)
  else (st, failure (v.error.getD "") "VALIDATION_ERROR")

/-- update: read the existing profile (NOT_FOUND if absent), spread
updates over it, deep-merge preferences, re-stamp updatedAt with a fresh
Date (the now argument), force uid back to the argument, re-validate,
persist, return the merged profile. -/
def repoUpdate (now : Nat) (st : Store) (uid : String) (updates : ProfileUpdates) : Store × Res UserProfile :=
  if uid = "" then (st, failure "User ID is required" "INVALID_UID")
  else
    match (repoFindById st uid).2 with
    | Res.err m c => (st, Res.err m c)
    | Res.ok none => (st, failure "Profile not found" "NOT_FOUND")
    | Res.ok (some existing) =>
      let pe := updates.preferences.getD ⟨none, none⟩
      let merged : UserProfile :=
        { uid := updates.uid.getD existing.uid
          email := updates.email.getD existing.email
          displayName := updates.displayName.getD existing.displayName
          photoURL := updates.photoURL.getD existing.photoURL
          createdAt := updates.createdAt.getD existing.createdAt
          updatedAt := ⟨now⟩
          preferences :=
            ⟨pe.theme.getD existing.preferences.theme,
             pe.emailNotifications.getD existing.preferences.emailNotifications⟩ }
      let updated := { merged with uid := uid }
      let v := validateUserProfile updated
      if v.valid then (storeSet st (storageKey uid) (serializeUserProfile updated), success updated)
      else (st, failure (v.error.getD "") "VALIDATION_ERROR")

/-! ### user-profile-service.js -/

/-- Repository interface from user-profile-repository.js, over an
abstract storage state, as injected into the service constructor. -/
structure Repo (σ : Type) where
  findById : σ → String → σ × Res (Option UserProfile)
  save : σ → UserProfile → σ × Res UserProfile
  update : σ → String → ProfileUpdates → σ × Res UserProfile

/-- The LocalStorage repository instance; update stamps updatedAt with
the ambient clock value now. -/
def localRepo (now : Nat) : Repo Store := ⟨repoFindById, repoSave, repoUpdate now⟩

/-- Cache entry of the service: profile plus capture timestamp. -/
structure CacheEntry where
  profile : UserProfile
  timestamp : Nat
deriving DecidableEq

/-- Service-owned state: the uid-keyed cache Map and, in place of the
callback array, the observable trace of values delivered to state-change
subscribers (one entry per notifyStateChange, which delivers to every
registered callback with per-callback exception isolation). -/
structure ServiceState where
  cache : String → Option CacheEntry
  notifLog : List (Option UserProfile)

/-- CACHE_TTL_MS from user-profile-service.js. -/
def CACHE_TTL_MS : Nat := 5 * 60 * 1000

/-- getCached: a hit younger than the TTL returns the profile; an entry
older than the TTL is deleted (lazy read-time eviction) and reported as
a miss. Returns the possibly-updated state alongside the lookup. -/
def getCached (svc : ServiceState) (uid : String) (now : Nat) : Option UserProfile × ServiceState :=
  match svc.cache uid with
  | none => (none, svc)
  | some e =>
    if now - e.timestamp > CACHE_TTL_MS then
      (none, { svc with cache := fun k => if k = uid then none else svc.cache k })
    else (some e.profile, svc)

/-- setCache: store the profile with the current timestamp. -/
def setCache (svc : ServiceState) (uid : String) (p : UserProfile) (now : Nat) : ServiceState :=
  { svc with cache := fun k => if k = uid then some ⟨p, now⟩ else svc.cache k }

/-- notifyStateChange: deliver the value to all subscribers (recorded as
one trace entry). -/
def notifyStateChange (svc : ServiceState) (p : Option UserProfile) : ServiceState :=
  { svc with notifLog := svc.notifLog ++ [p] }

/-- Repository interactions a service operation performed, in order. -/
inductive RepoCall where
  | findById (uid : String)
  | save (uid : String)
  | update (uid : String)
deriving DecidableEq

/-- Outcome of one service operation: the returned Result, the service
state, the repository storage state, and the repository calls made. -/
structure SvcOut (σ : Type) (α : Type) where
  result : Res α
  svc : ServiceState
  store : σ
  calls : List RepoCall

/-- getProfile from user-profile-service.js. -/
def getProfile {σ : Type} (repo : Repo σ) (st : σ) (svc : ServiceState) (uid : String) (now : Nat) :
    SvcOut σ (Option UserProfile) :=
  if uid = "" then ⟨failure "User ID is required" "INVALID_UID", svc, st, []⟩
  else
    match getCached svc uid now with
    | (some p, svc1) => ⟨success (some p), svc1, st, []⟩
    | (none, svc1) =>
      let fr := repo.findById st uid
      match fr.2 with
      | Res.ok (some d) => ⟨Res.ok (some d), setCache svc1 uid d now, fr.1, [RepoCall.findById uid]⟩
      | Res.ok none => ⟨Res.ok none, svc1, fr.1, [RepoCall.findById uid]⟩
      | Res.err m c => ⟨Res.err m c, svc1, fr.1, [RepoCall.findById uid]⟩

/-- getOrCreateProfile from user-profile-service.js. -/
def getOrCreateProfile {σ : Type} (repo : Repo σ) (st : σ) (svc : ServiceState) (authUser : AuthUser) (now : Nat) :
    SvcOut σ UserProfile :=
  if authUser.uid = "" then ⟨failure "Valid auth user is required" "INVALID_USER", svc, st, []⟩
  else
    match getCached svc authUser.uid now with
    | (some p, svc1) => ⟨success p, svc1, st, []⟩
    | (none, svc1) =>
      let fr := repo.findById st authUser.uid
      match fr.2 with
      | Res.err m c => ⟨Res.err m c, svc1, fr.1, [RepoCall.findById authUser.uid]⟩
      | Res.ok (some p) =>
        ⟨success p, setCache svc1 authUser.uid p now, fr.1, [RepoCall.findById authUser.uid]⟩
      | Res.ok none =>
        let p := createUserProfileFromAuth authUser now
        let sr := repo.save fr.1 p
        match sr.2 with
        | Res.err m c =>
          ⟨Res.err m c, svc1, sr.1, [RepoCall.findById authUser.uid, RepoCall.save authUser.uid]⟩
        | Res.ok ps =>
          ⟨success ps, setCache svc1 authUser.uid ps now, sr.1,
            [RepoCall.findById authUser.uid, RepoCall.save authUser.uid]⟩

/-- JavaScript argument value for the preferences parameter: the service
checks truthiness and typeof before using it as an object. -/
inductive JSArg (α : Type) where
  | null
  | undefined
  | bool (b : Bool)
  | num (n : Int)
  | str (s : String)
  | obj (a : α)
deriving DecidableEq

/-- updatePreferences from user-profile-service.js: uid check, then the
preferences truthiness/typeof check (only a real object passes: null is
typeof object but falsy, undefined and primitives fail typeof), then
delegate to repository update with an updates object holding only the
preferences key; on success refresh cache and notify. -/
def updatePreferences {σ : Type} (repo : Repo σ) (st : σ) (svc : ServiceState) (uid : String)
    (preferences : JSArg PrefUpdates) (now : Nat) : SvcOut σ UserProfile :=
  if uid = "" then ⟨failure "User ID is required" "INVALID_UID", svc, st, []⟩
  else
    match preferences with
    | JSArg.obj p =>
      let ur := repo.update st uid ⟨none, none, none, none, none, some p⟩
      match ur.2 with
      | Res.ok d => ⟨success d, notifyStateChange (setCache svc uid d now) (some d), ur.1, [RepoCall.update uid]⟩
      | Res.err m c => ⟨Res.err m c, svc, ur.1, [RepoCall.update uid]⟩
    | _ => ⟨failure "Preferences object is required" "INVALID_PREFERENCES", svc, st, []⟩

/-- updateProfile from user-profile-service.js. -/
def updateProfile {σ : Type} (repo : Repo σ) (st : σ) (svc : ServiceState) (uid : String)
    (updates : ProfileUpdates) (now : Nat) : SvcOut σ UserProfile :=
  if uid = "" then ⟨failure "User ID is required" "INVALID_UID", svc, st, []⟩
  else
    let ur := repo.update st uid updates
    match ur.2 with
    | Res.ok d => ⟨success d, notifyStateChange (setCache svc uid d now) (some d), ur.1, [RepoCall.update uid]⟩
    | Res.err m c => ⟨Res.err m c, svc, ur.1, [RepoCall.update uid]⟩

/-! ### RouterModule from ui.js -/

/-- Router state: the route table Map (path to handler, handlers named
by numeric ids whose invocations are recorded in the log), the
currentRoute pointer, the before-navigate guard list, and the URL hash
(including its leading # when non-empty, as in window.location.hash). -/
structure RouterState where
  routes : String → Option Nat
  currentRoute : Option String
  guards : List (String → Option String → Option Bool)
  hash : String
  log : List Nat

/-- JS path.startsWith of a slash. -/
def strStartsWithSlash (s : String) : Bool :=
  match s.data with
  | [] => false
  | c :: _ => c = '/'

/-- JS path.endsWith of a slash. -/
def strEndsWithSlash (s : String) : Bool :=
  match s.data.getLast? with
  | some c => c = '/'
  | none => false

/-- JS path.slice(0, -1). -/
def strDropLast (s : String) : String := ⟨s.data.dropLast⟩

/-- normalizePath from ui.js: ensure a leading slash, strip a trailing
slash except for the root path. -/
def normalizePath (path : String) : String :=
  let n := if strStartsWithSlash path then path else "/" ++ path
  if n ≠ "/" && strEndsWithSlash n then strDropLast n else n

/-- getPathFromHash from ui.js: empty or bare # hash is the root path,
otherwise drop the # and normalize. -/
def getPathFromHash (hash : String) : String :=
  if hash = "" || hash = "#" then "/" else normalizePath ⟨hash.data.drop 1⟩

/-- A guard run: callbacks are consulted in order and navigation is
cancelled exactly when one returns the value false (a guard may also
return true or nothing, modelled as Option Bool). With effect-free
guards the in-order early exit of the source loop is observably whether
any guard returns false. -/
def guardsCancel (gs : List (String → Option String → Option Bool)) (pth : String) (cur : Option String) : Bool :=
  gs.any fun g => decide (g pth cur = some false)

/-- Hash value history.replaceState restores on cancellation: the
page pathname (empty hash) when the previous route was the root,
otherwise # followed by the previous route. A null previous route
interpolates as the string null, as in the source template literal. -/
def restoreHash : Option String → String
  | some "/" => ""
  | some r => "#" ++ r
  | none => "#null"

/-- handleRouteChange from ui.js: derive the path from the hash; same
path as currentRoute is a no-op; a guard returning false cancels and
restores the previous hash without re-triggering resolution
(history.replaceState fires no hashchange); otherwise commit the route
and invoke its handler, falling back to the root handler when the path
is unregistered. -/
def handleRouteChange (st : RouterState) : RouterState :=
  let pth := getPathFromHash st.hash
  if st.currentRoute = some pth then st
  else if guardsCancel st.guards pth st.currentRoute then
    { st with hash := restoreHash st.currentRoute }
  else
    let st1 := { st with currentRoute := some pth }
    match st1.routes pth with
    | some h => { st1 with log := st1.log ++ [h] }
    | none =>
      match st1.routes "/" with
      | some h => { st1 with log := st1.log ++ [h] }
      | none => st1

/-- register from ui.js: normalize and store the mapping, last
registration wins. -/
def register (st : RouterState) (path : String) (handler : Nat) : RouterState :=
  { st with routes := fun p => if p = normalizePath path then some handler else st.routes p }

/-- navigate from ui.js: normalize, then set the URL hash (the root
path clears it). The browser fires hashchange, and with it route
resolution, only when the hash value actually changes. -/
def navigate (st : RouterState) (path : String) : RouterState :=
  let n := normalizePath path
  let newHash := if n = "/" then "" else "#" ++ n
  if newHash = st.hash then { st with hash := newHash }
  else handleRouteChange { st with hash := newHash }

/-- getCurrentRoute from ui.js. -/
def getCurrentRoute (st : RouterState) : Option String := st.currentRoute

/-! ### AuthHintModule from auth-hint.js -/

/-- JSON values as produced by JSON.parse. Parsed objects have unique
keys (later duplicates overwrite earlier ones during parsing). -/
inductive JSValue where
  | null
  | bool (b : Bool)
  | num (n : Int)
  | str (s : String)
  | arr (elems : List JSValue)
  | obj (fields : List (String × JSValue))

/-- Object field lookup. -/
def lookupKey (k : String) : List (String × JSValue) → Option JSValue
  | [] => none
  | (k2, v) :: t => if k2 = k then some v else lookupKey k t

/-- Outcome of a JS property access. -/
inductive PropAccess where
  | thrown
  | undef
  | val (v : JSValue)

/-- Property access on a parsed JSON value: reading a property of null
throws a TypeError; objects look the key up (undefined when missing);
other primitives and arrays yield undefined for this key. -/
def getProp (v : JSValue) (k : String) : PropAccess :=
  match v with
  | JSValue.null => PropAccess.thrown
  | JSValue.obj fs =>
    match lookupKey k fs with
    | some w => PropAccess.val w
    | none => PropAccess.undef
  | _ => PropAccess.undef

/-- getHint from auth-hint.js, over the quotient of what localStorage
holds under the hint key: none models an absent (or falsy) stored value,
some none a stored string JSON.parse rejects (the exception is caught),
and some (some v) a stored string parsing to v. The parsed value is
returned only when its isAuthenticated property is typeof boolean; a
thrown property access is caught by the same try block. The function is
total: no input makes it throw. -/
def getHint (stored : Option (Option JSValue)) : Option JSValue :=
  match stored with
  | none => none
  | some none => none
  | some (some v) =>
    match getProp v "isAuthenticated" with
    | PropAccess.val (JSValue.bool _) => some v
    | _ => none

/-- Error-code taxonomy as enumerated by the specification (section 7);
kept here only to compare the implemented codes against it. -/
def specErrorTaxonomy : List String :=
  ["INVALID_UID", "INVALID_USER", "VALIDATION_ERROR", "NOT_FOUND", "QUOTA_EXCEEDED",
   "READ_ERROR", "SAVE_ERROR", "UPDATE_ERROR", "DELETE_ERROR", "EXISTS_ERROR", "UNKNOWN_ERROR"]

/-! ### Concrete fixtures used to instantiate the theorems below -/

/-- A trivial repository over a unit storage state: reads miss, saves
echo, updates report NOT_FOUND. -/
def unitRepo : Repo Unit :=
  ⟨fun st _ => (st, success none), fun st p => (st, success p),
   fun st _ _ => (st, failure "Profile not found" "NOT_FOUND")⟩

/-- A repository whose update always fails. -/
def errRepo : Repo Unit :=
  ⟨fun st _ => (st, success none), fun st p => (st, success p),
   fun st _ _ => (st, failure "boom" "UPDATE_ERROR")⟩

/-- A sample profile. -/
def pW : UserProfile := ⟨"u1", "a@b.com", "A", none, ⟨0⟩, ⟨0⟩, ⟨"system", true⟩⟩

/-- A sample profile with dark theme (the C2 scenario start state). -/
def pDark : UserProfile := ⟨"u1", "a@b.com", "A", none, ⟨0⟩, ⟨0⟩, ⟨"dark", true⟩⟩

/-- A sample profile with timestamps in late 2023. -/
def pW7 : UserProfile := ⟨"u1", "a@b.com", "A", none, ⟨1700000000123⟩, ⟨1700000001999⟩, ⟨"dark", true⟩⟩

/-- Service state holding a cache entry for u1 captured at time 0. -/
def svcW1 : ServiceState := ⟨fun k => if k = "u1" then some ⟨pW, 0⟩ else none, []⟩

/-- Empty localStorage. -/
def emptyStore : Store := fun _ => none

/-- Fresh service state. -/
def svc0 : ServiceState := ⟨fun _ => none, []⟩

/-- The auth user of the C6 scenario. -/
def authU1 : AuthUser := ⟨"u1", some "a@b.com", some "A", none⟩

/-- Router at the root route with a guard that always returns false. -/
def routerC4 : RouterState :=
  ⟨fun p => if p = "/" then some 0 else if p = "/profile" then some 1 else none,
   some "/", [fun _ _ => some false], "", []⟩

/-- Router at the root route with no guards. -/
def routerC5 : RouterState :=
  ⟨fun p => if p = "/" then some 0 else if p = "/profile" then some 1 else none,
   some "/", [], "", []⟩

/-! ### Calendar lemmas -/

theorem daysInYear_pos (y : Nat) : 0 < daysInYear y := by
  unfold daysInYear
  split <;> omega

theorem yearDoyAux_spec : ∀ f y d : Nat, d ≤ f →
    (yearDoyAux f y d).2 < daysInYear (yearDoyAux f y d).1 ∧
    y ≤ (yearDoyAux f y d).1 ∧
    yearsDaysAux ((yearDoyAux f y d).1 - y) y + (yearDoyAux f y d).2 = d := by
  intro f
  induction f with
  | zero =>
    intro y d hd
    have hd0 : d = 0 := Nat.le_zero.mp hd
    subst hd0
    simpa [yearDoyAux, yearsDaysAux] using daysInYear_pos y
  | succ f ih =>
    intro y d hd
    by_cases h : d < daysInYear y
    · simp [yearDoyAux, h, yearsDaysAux]
    · have h365 := daysInYear_pos y
      have hd2 : d - daysInYear y ≤ f := by omega
      obtain ⟨h1, h2, h3⟩ := ih (y + 1) (d - daysInYear y) hd2
      simp only [yearDoyAux, if_neg h]
      refine ⟨h1, by omega, ?_⟩
      have hsub : (yearDoyAux f (y + 1) (d - daysInYear y)).1 - y =
          ((yearDoyAux f (y + 1) (d - daysInYear y)).1 - (y + 1)) + 1 := by omega
      rw [hsub, yearsDaysAux]
      omega

theorem yearDoy_spec (d : Nat) :
    (yearDoy d).2 < daysInYear (yearDoy d).1 ∧ 1970 ≤ (yearDoy d).1 ∧
    daysFromEpochYear (yearDoy d).1 + (yearDoy d).2 = d := by
  have h := yearDoyAux_spec d 1970 d (Nat.le_refl d)
  simpa [yearDoy, daysFromEpochYear] using h

theorem monthDay_ok_leap : ∀ doy, doy < 366 →
    monthStart true (monthDay true doy).1 + ((monthDay true doy).2 - 1) = doy ∧
    1 ≤ (monthDay true doy).1 ∧ (monthDay true doy).1 ≤ 12 ∧
    1 ≤ (monthDay true doy).2 ∧ (monthDay true doy).2 ≤ monthLen true (monthDay true doy).1 := by
  decide

theorem monthDay_ok_noleap : ∀ doy, doy < 365 →
    monthStart false (monthDay false doy).1 + ((monthDay false doy).2 - 1) = doy ∧
    1 ≤ (monthDay false doy).1 ∧ (monthDay false doy).1 ≤ 12 ∧
    1 ≤ (monthDay false doy).2 ∧ (monthDay false doy).2 ≤ monthLen false (monthDay false doy).1 := by
  decide

theorem monthDay_spec (y doy : Nat) (h : doy < daysInYear y) :
    monthStart (isLeap y) (monthDay (isLeap y) doy).1 + ((monthDay (isLeap y) doy).2 - 1) = doy ∧
    1 ≤ (monthDay (isLeap y) doy).1 ∧ (monthDay (isLeap y) doy).1 ≤ 12 ∧
    1 ≤ (monthDay (isLeap y) doy).2 ∧
    (monthDay (isLeap y) doy).2 ≤ monthLen (isLeap y) (monthDay (isLeap y) doy).1 := by
  unfold daysInYear at h
  cases hl : isLeap y with
  | false =>
    rw [hl] at h
    exact monthDay_ok_noleap doy (by simpa using h)
  | true =>
    rw [hl] at h
    exact monthDay_ok_leap doy (by simpa using h)

theorem monthLen_le (leap : Bool) : ∀ m, m < 13 → monthLen leap m ≤ 31 := by
  cases leap <;> decide

theorem digVal_digitChar : ∀ d, d < 10 → digVal (Nat.digitChar d) = d := by decide

theorem isDigit_digitChar : ∀ d, d < 10 → (Nat.digitChar d).isDigit = true := by decide

theorem parse_print (y mo d hh mi ss mmm : Nat)
    (hy1970 : 1970 ≤ y) (hy : y ≤ 9999) (hmo1 : 1 ≤ mo) (hmo12 : mo ≤ 12)
    (hd1 : 1 ≤ d) (hdle : d ≤ monthLen (isLeap y) mo)
    (hhh : hh < 24) (hmi : mi < 60) (hss : ss < 60) (hmmm : mmm < 1000) :
    parseIsoChars (pad4 y ++ '-' :: pad2 mo ++ '-' :: pad2 d ++ 'T' :: pad2 hh ++
      ':' :: pad2 mi ++ ':' :: pad2 ss ++ '.' :: pad3 mmm ++ ['Z']) =
    some ((daysFromEpochYear y + monthStart (isLeap y) mo + (d - 1)) * 86400000 +
      hh * 3600000 + mi * 60000 + ss * 1000 + mmm) := by
  have hd31 : d ≤ 31 := le_trans hdle (monthLen_le (isLeap y) mo (by omega))
  simp only [pad4, pad2, pad3, List.cons_append, List.nil_append]
  rw [parseIsoChars]
  rw [isDigit_digitChar (y / 1000) (by omega), isDigit_digitChar (y / 100 % 10) (by omega),
    isDigit_digitChar (y / 10 % 10) (by omega), isDigit_digitChar (y % 10) (by omega),
    isDigit_digitChar (mo / 10) (by omega), isDigit_digitChar (mo % 10) (by omega),
    isDigit_digitChar (d / 10) (by omega), isDigit_digitChar (d % 10) (by omega),
    isDigit_digitChar (hh / 10) (by omega), isDigit_digitChar (hh % 10) (by omega),
    isDigit_digitChar (mi / 10) (by omega), isDigit_digitChar (mi % 10) (by omega),
    isDigit_digitChar (ss / 10) (by omega), isDigit_digitChar (ss % 10) (by omega),
    isDigit_digitChar (mmm / 100) (by omega), isDigit_digitChar (mmm / 10 % 10) (by omega),
    isDigit_digitChar (mmm % 10) (by omega)]
  simp only [Bool.and_self, if_true]
  rw [digVal_digitChar (y / 1000) (by omega), digVal_digitChar (y / 100 % 10) (by omega),
    digVal_digitChar (y / 10 % 10) (by omega), digVal_digitChar (y % 10) (by omega),
    digVal_digitChar (mo / 10) (by omega), digVal_digitChar (mo % 10) (by omega),
    digVal_digitChar (d / 10) (by omega), digVal_digitChar (d % 10) (by omega),
    digVal_digitChar (hh / 10) (by omega), digVal_digitChar (hh % 10) (by omega),
    digVal_digitChar (mi / 10) (by omega), digVal_digitChar (mi % 10) (by omega),
    digVal_digitChar (ss / 10) (by omega), digVal_digitChar (ss % 10) (by omega),
    digVal_digitChar (mmm / 100) (by omega), digVal_digitChar (mmm / 10 % 10) (by omega),
    digVal_digitChar (mmm % 10) (by omega)]
  have hy4 : y / 1000 * 1000 + y / 100 % 10 * 100 + y / 10 % 10 * 10 + y % 10 = y := by omega
  have hmo2 : mo / 10 * 10 + mo % 10 = mo := by omega
  have hd2 : d / 10 * 10 + d % 10 = d := by omega
  have hhh2 : hh / 10 * 10 + hh % 10 = hh := by omega
  have hmi2 : mi / 10 * 10 + mi % 10 = mi := by omega
  have hss2 : ss / 10 * 10 + ss % 10 = ss := by omega
  have hmmm3 : mmm / 100 * 100 + mmm / 10 % 10 * 10 + mmm % 10 = mmm := by omega
  rw [hy4, hmo2, hd2, hhh2, hmi2, hss2, hmmm3]
  rw [if_pos ⟨hy1970, hmo1, hmo12, hd1, hdle, hhh, hmi, hss⟩]

theorem isoRoundtripMs (ms : Nat) (hy : msYear ms ≤ 9999) : parseIsoMs (isoOfMs ms) = some ms := by
  obtain ⟨hdlt, hy1970, hsum⟩ := yearDoy_spec (ms / 86400000)
  obtain ⟨hms, hmo1, hmo12, hd1, hdle⟩ := monthDay_spec (yearDoy (ms / 86400000)).1 (yearDoy (ms / 86400000)).2 hdlt
  have hkey := parse_print (yearDoy (ms / 86400000)).1
    (monthDay (isLeap (yearDoy (ms / 86400000)).1) (yearDoy (ms / 86400000)).2).1
    (monthDay (isLeap (yearDoy (ms / 86400000)).1) (yearDoy (ms / 86400000)).2).2
    (ms % 86400000 / 3600000) (ms % 86400000 / 60000 % 60) (ms % 86400000 / 1000 % 60)
    (ms % 86400000 % 1000) hy1970 hy hmo1 hmo12 hd1 hdle (by omega) (by omega) (by omega) (by omega)
  show parseIsoChars (isoChars ms) = some ms
  simp only [isoChars]
  rw [hkey]
  exact congrArg some (by omega)

/-! ### Claim theorems -/

/-- C7: for every valid profile (with timestamps inside the fixed-width
ISO window of the modelled runtime format, i.e. up to year 9999),
deserializeUserProfile of serializeUserProfile recovers the profile
exactly: the two timestamps round-trip to the millisecond and every
other field (uid, email, displayName, photoURL, preferences) is
unchanged; and serialization encodes each timestamp as its ISO-8601
string rendering. -/
theorem C7_serialize_roundtrip (p : UserProfile)
    (h1 : msYear p.createdAt.ms ≤ 9999) (h2 : msYear p.updatedAt.ms ≤ 9999) :
    deserializeUserProfile (serializeUserProfile p) = p ∧
    (serializeUserProfile p).createdAt = isoOfMs p.createdAt.ms ∧
    (serializeUserProfile p).updatedAt = isoOfMs p.updatedAt.ms := by
  refine ⟨?_, rfl, rfl⟩
  have hc := isoRoundtripMs p.createdAt.ms h1
  have hu := isoRoundtripMs p.updatedAt.ms h2
  simp [deserializeUserProfile, serializeUserProfile, hc, hu]

/-- Witness for C7 at a concrete profile with late-2023 timestamps. -/
theorem C7_witness :
    msYear 1700000000123 ≤ 9999 ∧ msYear 1700000001999 ≤ 9999 ∧
    deserializeUserProfile (serializeUserProfile pW7) = pW7 :=
  ⟨by decide, by decide, (C7_serialize_roundtrip pW7 (by decide) (by decide)).1⟩

/-- C2: repository update deep-merges preferences: for every stored
profile and partial update whose preferences sets only some keys, each
unspecified preference key keeps its existing value and each specified
key takes the new one; in particular, starting from preferences dark
with email notifications on, updating only the theme to light yields
light with email notifications still on. -/
theorem C2_preferences_merge :
    (∀ (st : Store) (uid : String) (sp : StoredProfile) (u : ProfileUpdates) (pu : PrefUpdates) (now : Nat),
      st (storageKey uid) = some sp → uid ≠ "" → u.preferences = some pu →
      ∃ p2, (repoUpdate now st uid u).2 = Res.ok p2 ∧
        (pu.theme = none → p2.preferences.theme = (deserializeUserProfile sp).preferences.theme) ∧
        (pu.emailNotifications = none →
          p2.preferences.emailNotifications = (deserializeUserProfile sp).preferences.emailNotifications) ∧
        (∀ t, pu.theme = some t → p2.preferences.theme = t) ∧
        (∀ b, pu.emailNotifications = some b → p2.preferences.emailNotifications = b)) ∧
    (∀ now, ∃ p2,
      (repoUpdate now (storeSet emptyStore (storageKey "u1") (serializeUserProfile pDark)) "u1"
        ⟨none, none, none, none, none, some ⟨some "light", none⟩⟩).2 = Res.ok p2 ∧
      p2.preferences = ⟨"light", true⟩) := by
  constructor
  · intro st uid sp u pu now hs hu hp
    simp only [repoUpdate, repoFindById, if_neg hu, hs, hp]
    simp only [validateUserProfile, if_neg hu, if_pos rfl]
    refine ⟨_, rfl, ?_, ?_, ?_, ?_⟩
    · intro h
      simp [h]
    · intro h
      simp [h]
    · intro t h
      simp [h]
    · intro b h
      simp [h]
  · intro now
    refine ⟨_, rfl, rfl⟩

/-- Witness for C2 at the concrete dark-to-light scenario. -/
theorem C2_witness :
    (storeSet emptyStore (storageKey "u1") (serializeUserProfile pDark)) (storageKey "u1") =
      some (serializeUserProfile pDark) ∧
    ∃ p2, (repoUpdate 7 (storeSet emptyStore (storageKey "u1") (serializeUserProfile pDark)) "u1"
        ⟨none, none, none, none, none, some ⟨some "light", none⟩⟩).2 = Res.ok p2 ∧
      p2.preferences = ⟨"light", true⟩ :=
  ⟨rfl, C2_preferences_merge.2 7⟩

/-- C3: for every stored profile and every partial update, including one
smuggling a different uid, a successful repository update returns and
persists (under the same storage key) a profile whose uid is still the
uid under which it was stored. -/
theorem C3_uid_immutable (st : Store) (uid : String) (u : ProfileUpdates) (now : Nat) (p2 : UserProfile)
    (h : (repoUpdate now st uid u).2 = Res.ok p2) :
    p2.uid = uid ∧ (repoUpdate now st uid u).1 (storageKey uid) = some (serializeUserProfile p2) := by
  by_cases hu : uid = ""
  · simp [repoUpdate, hu, failure] at h
  · cases hfind : (repoFindById st uid).2 with
    | err m c =>
      simp [repoUpdate, hu, hfind] at h
    | ok dataOpt =>
      cases dataOpt with
      | none => simp [repoUpdate, hu, hfind, failure] at h
      | some existing =>
        simp [repoUpdate, hu, hfind, validateUserProfile, success, storeSet] at h ⊢
        subst h
        simp

/-- Witness for C3: an update that tries to set uid to other-id. -/
theorem C3_witness :
    (repoUpdate 9 (storeSet emptyStore (storageKey "u1") (serializeUserProfile pDark)) "u1"
      ⟨some "other-id", none, some "X", none, none, none⟩).2 =
      Res.ok ⟨"u1", "a@b.com", "X", none, ⟨0⟩, ⟨9⟩, ⟨"dark", true⟩⟩ ∧
    (⟨"u1", "a@b.com", "X", none, ⟨0⟩, ⟨9⟩, ⟨"dark", true⟩⟩ : UserProfile).uid = "u1" ∧
    (repoUpdate 9 (storeSet emptyStore (storageKey "u1") (serializeUserProfile pDark)) "u1"
      ⟨some "other-id", none, some "X", none, none, none⟩).1 (storageKey "u1") =
      some (serializeUserProfile ⟨"u1", "a@b.com", "X", none, ⟨0⟩, ⟨9⟩, ⟨"dark", true⟩⟩) := by
  have h := C3_uid_immutable (storeSet emptyStore (storageKey "u1") (serializeUserProfile pDark)) "u1"
    ⟨some "other-id", none, some "X", none, none, none⟩ 9
    ⟨"u1", "a@b.com", "X", none, ⟨0⟩, ⟨9⟩, ⟨"dark", true⟩⟩ (by decide)
  exact ⟨by decide, h.1, h.2⟩

/-- C1: on getProfile, a cache entry older than the 5-minute TTL
(300000 ms) is evicted and the repository findById is consulted — the
returned result is the repository result and the cache afterwards holds
the refetched profile or nothing, not the stale entry; a cache entry
younger than 5 minutes is returned directly with no repository call and
no state change. The uid is non-empty, as for every uid the service ever
caches under. -/
theorem C1_cache_ttl (σ : Type) (repo : Repo σ) (st : σ) (svc : ServiceState) (uid : String)
    (now : Nat) (e : CacheEntry) (hc : svc.cache uid = some e) (hu : uid ≠ "") :
    (now - e.timestamp > CACHE_TTL_MS →
      (getProfile repo st svc uid now).calls = [RepoCall.findById uid] ∧
      (getProfile repo st svc uid now).result = (repo.findById st uid).2 ∧
      (getProfile repo st svc uid now).svc.cache uid =
        (match (repo.findById st uid).2 with
          | Res.ok (some d) => some ⟨d, now⟩
          | _ => none)) ∧
    (now - e.timestamp < CACHE_TTL_MS →
      getProfile repo st svc uid now = ⟨success (some e.profile), svc, st, []⟩) := by
  constructor
  · intro hold
    simp only [getProfile, getCached, hc, if_neg hu, if_pos hold]
    cases hr : (repo.findById st uid).2 with
    | ok dataOpt =>
      cases dataOpt with
      | none => simp [hr]
      | some d => simp [hr, setCache]
    | err m c => simp [hr]
  · intro hfresh
    have hnot : ¬(now - e.timestamp > CACHE_TTL_MS) := by omega
    simp only [getProfile, getCached, hc, if_neg hu, if_neg hnot]

/-- Witness for C1: a stale entry (age 300001 ms) forces a repository
read and eviction. -/
theorem C1_witness :
    svcW1.cache "u1" = some ⟨pW, 0⟩ ∧ ("u1" : String) ≠ "" ∧ 300001 - 0 > CACHE_TTL_MS ∧
    ((getProfile unitRepo () svcW1 "u1" 300001).calls = [RepoCall.findById "u1"] ∧
      (getProfile unitRepo () svcW1 "u1" 300001).result = (unitRepo.findById () "u1").2 ∧
      (getProfile unitRepo () svcW1 "u1" 300001).svc.cache "u1" =
        (match (unitRepo.findById () "u1").2 with
          | Res.ok (some d) => some ⟨d, 300001⟩
          | _ => none)) :=
  ⟨by decide, by decide, by decide,
    (C1_cache_ttl Unit unitRepo () svcW1 "u1" 300001 ⟨pW, 0⟩ (by decide) (by decide)).1 (by decide)⟩

/-- C6: getOrCreateProfile for auth user u1 on an empty store succeeds
with a profile whose preferences are the defaults (system theme, email
notifications on) and whose createdAt equals updatedAt; a second call
for the same uid within the TTL returns the same profile from cache and
performs no repository call. -/
theorem C6_get_or_create (now now2 : Nat) (h2 : now2 - now ≤ CACHE_TTL_MS) :
    ∃ p : UserProfile,
      (getOrCreateProfile (localRepo now) emptyStore svc0 authU1 now).result = success p ∧
      p.preferences = ⟨"system", true⟩ ∧
      p.createdAt = p.updatedAt ∧
      (getOrCreateProfile (localRepo now2) (getOrCreateProfile (localRepo now) emptyStore svc0 authU1 now).store
        (getOrCreateProfile (localRepo now) emptyStore svc0 authU1 now).svc authU1 now2).result = success p ∧
      (getOrCreateProfile (localRepo now2) (getOrCreateProfile (localRepo now) emptyStore svc0 authU1 now).store
        (getOrCreateProfile (localRepo now) emptyStore svc0 authU1 now).svc authU1 now2).calls = [] := by
  have h1 : getOrCreateProfile (localRepo now) emptyStore svc0 authU1 now =
      ⟨success (createUserProfileFromAuth authU1 now),
        setCache svc0 "u1" (createUserProfileFromAuth authU1 now) now,
        storeSet emptyStore (storageKey "u1") (serializeUserProfile (createUserProfileFromAuth authU1 now)),
        [RepoCall.findById "u1", RepoCall.save "u1"]⟩ := rfl
  refine ⟨createUserProfileFromAuth authU1 now, by rw [h1], rfl, rfl, ?_, ?_⟩ <;>
    · rw [h1]
      have hnot : ¬(now2 - now > CACHE_TTL_MS) := by omega
      simp [getOrCreateProfile, getCached, setCache, authU1, hnot]

/-- Witness for C6 at concrete times 0 and 1000. -/
theorem C6_witness :
    1000 - 0 ≤ CACHE_TTL_MS ∧
    ∃ p : UserProfile,
      (getOrCreateProfile (localRepo 0) emptyStore svc0 authU1 0).result = success p ∧
      p.preferences = ⟨"system", true⟩ ∧
      p.createdAt = p.updatedAt ∧
      (getOrCreateProfile (localRepo 1000) (getOrCreateProfile (localRepo 0) emptyStore svc0 authU1 0).store
        (getOrCreateProfile (localRepo 0) emptyStore svc0 authU1 0).svc authU1 1000).result = success p ∧
      (getOrCreateProfile (localRepo 1000) (getOrCreateProfile (localRepo 0) emptyStore svc0 authU1 0).store
        (getOrCreateProfile (localRepo 0) emptyStore svc0 authU1 0).svc authU1 1000).calls = [] :=
  ⟨by decide, C6_get_or_create 0 1000 (by decide)⟩

/-- C8: when the repository update returns a failure, updatePreferences
and updateProfile leave the cache exactly as it was (any stale entry
untouched) and deliver no state-change notification; cache refresh and
notification happen only on success. -/
theorem C8_failure_no_mutation (σ : Type) (repo : Repo σ) (st : σ) (svc : ServiceState)
    (uid : String) (now : Nat) :
    (∀ (pu : PrefUpdates) (m c : String),
      (repo.update st uid ⟨none, none, none, none, none, some pu⟩).2 = Res.err m c →
      (updatePreferences repo st svc uid (JSArg.obj pu) now).svc.cache = svc.cache ∧
      (updatePreferences repo st svc uid (JSArg.obj pu) now).svc.notifLog = svc.notifLog) ∧
    (∀ (u : ProfileUpdates) (m c : String),
      (repo.update st uid u).2 = Res.err m c →
      (updateProfile repo st svc uid u now).svc.cache = svc.cache ∧
      (updateProfile repo st svc uid u now).svc.notifLog = svc.notifLog) := by
  constructor
  · intro pu m c h
    by_cases hu : uid = ""
    · simp [updatePreferences, hu]
    · simp [updatePreferences, hu, h]
  · intro u m c h
    by_cases hu : uid = ""
    · simp [updateProfile, hu]
    · simp [updateProfile, hu, h]

/-- Witness for C8: a repository whose update always fails leaves a
populated service state untouched. -/
theorem C8_witness :
    (errRepo.update () "u1" ⟨none, none, none, none, none, some ⟨some "dark", none⟩⟩).2 =
      Res.err "boom" "UPDATE_ERROR" ∧
    ((updatePreferences errRepo () svcW1 "u1" (JSArg.obj ⟨some "dark", none⟩) 5).svc.cache = svcW1.cache ∧
      (updatePreferences errRepo () svcW1 "u1" (JSArg.obj ⟨some "dark", none⟩) 5).svc.notifLog = svcW1.notifLog) :=
  ⟨rfl, (C8_failure_no_mutation Unit errRepo () svcW1 "u1" 5).1 ⟨some "dark", none⟩ "boom" "UPDATE_ERROR" rfl⟩

/-- C10 as frozen is false at an empty uid: there the uid check fires
first and the code is INVALID_UID, not INVALID_PREFERENCES. -/
theorem C10_counterexample :
    (updatePreferences unitRepo () svc0 "" (JSArg.null) 0).result =
      Res.err "User ID is required" "INVALID_UID" ∧
    "INVALID_UID" ≠ "INVALID_PREFERENCES" :=
  ⟨rfl, by decide⟩

/-- C10 (amended): for every non-empty uid and every preferences
argument that is null, undefined, or not an object, updatePreferences
fails with code INVALID_PREFERENCES — a code outside the error taxonomy
the spec enumerates — makes no repository call, and leaves the service
state and store untouched. -/
theorem C10_invalid_preferences (σ : Type) (repo : Repo σ) (st : σ) (svc : ServiceState)
    (uid : String) (now : Nat) (arg : JSArg PrefUpdates)
    (hu : uid ≠ "") (ha : ∀ p, arg ≠ JSArg.obj p) :
    (updatePreferences repo st svc uid arg now).result =
      Res.err "Preferences object is required" "INVALID_PREFERENCES" ∧
    (updatePreferences repo st svc uid arg now).calls = [] ∧
    (updatePreferences repo st svc uid arg now).svc = svc ∧
    (updatePreferences repo st svc uid arg now).store = st ∧
    "INVALID_PREFERENCES" ∉ specErrorTaxonomy := by
  have hmain : updatePreferences repo st svc uid arg now =
      ⟨failure "Preferences object is required" "INVALID_PREFERENCES", svc, st, []⟩ := by
    cases arg with
    | obj p => exact absurd rfl (ha p)
    | null => simp [updatePreferences, hu]
    | undefined => simp [updatePreferences, hu]
    | bool b => simp [updatePreferences, hu]
    | num n => simp [updatePreferences, hu]
    | str s => simp [updatePreferences, hu]
  rw [hmain]
  exact ⟨rfl, rfl, rfl, rfl, by decide⟩

/-- Witness for C10 (amended) at uid u1 with a null preferences
argument. -/
theorem C10_witness :
    ("u1" : String) ≠ "" ∧
    (updatePreferences unitRepo () svc0 "u1" (JSArg.null) 0).result =
      Res.err "Preferences object is required" "INVALID_PREFERENCES" :=
  ⟨by decide,
    (C10_invalid_preferences Unit unitRepo () svc0 "u1" 0 JSArg.null (by decide)
      (fun p h => JSArg.noConfusion h)).1⟩

/-- C4: whenever a route resolution runs its guards (the derived path
differs from currentRoute) and some registered guard returns exactly
false, navigation is cancelled: currentRoute, route table and handler
log are unchanged and the previous hash value is restored without
re-triggering resolution; in particular, with an always-false guard,
navigating to the profile route from the root leaves the current route
at the root, never invokes the profile handler, and restores the hash. -/
theorem C4_guard_cancellation :
    (∀ (st : RouterState) (pth : String), pth = getPathFromHash st.hash →
      st.currentRoute ≠ some pth →
      (∃ g ∈ st.guards, g pth st.currentRoute = some false) →
      handleRouteChange st = { st with hash := restoreHash st.currentRoute }) ∧
    ((navigate routerC4 "/profile").currentRoute = some "/" ∧
      (navigate routerC4 "/profile").log = [] ∧
      (navigate routerC4 "/profile").hash = "") := by
  constructor
  · intro st pth hp hne hex
    have hcancel : guardsCancel st.guards pth st.currentRoute = true := by
      obtain ⟨g, hg, hres⟩ := hex
      exact List.any_eq_true.mpr ⟨g, hg, by simp [hres]⟩
    subst hp
    simp only [handleRouteChange, if_neg hne, hcancel, if_true]
  · exact ⟨by decide, by decide, by decide⟩

/-- Witness for C4 instantiating the general cancellation statement on
the concrete always-false-guard router mid-navigation. -/
theorem C4_witness :
    ({ routerC4 with hash := "#/profile" } : RouterState).currentRoute ≠ some "/profile" ∧
    handleRouteChange { routerC4 with hash := "#/profile" } =
      { routerC4 with hash := restoreHash routerC4.currentRoute } :=
  ⟨by decide,
    C4_guard_cancellation.1 { routerC4 with hash := "#/profile" } "/profile" (by decide) (by decide)
      ⟨fun _ _ => some false, List.mem_singleton.mpr rfl, rfl⟩⟩

/-- C5: route resolution is idempotent in the current route — when the
path derived from the hash equals currentRoute, resolution leaves the
router state untouched (no guard run, no handler invoked) — and hence
navigating to the same path twice in a row invokes its handler exactly
once, the second call being a no-op. -/
theorem C5_idempotent_navigation :
    (∀ st : RouterState, st.currentRoute = some (getPathFromHash st.hash) → handleRouteChange st = st) ∧
    (∀ (st : RouterState) (p : String) (hId : Nat),
      let nh := if normalizePath p = "/" then "" else "#" ++ normalizePath p
      let pth := getPathFromHash nh
      nh ≠ st.hash →
      st.currentRoute ≠ some pth →
      guardsCancel st.guards pth st.currentRoute = false →
      st.routes pth = some hId →
      (navigate st p).log = st.log ++ [hId] ∧
      navigate (navigate st p) p = navigate st p) := by
  constructor
  · intro st h
    simp only [handleRouteChange, if_pos h]
  · intro st p hId nh pth hnh hne hg hr
    have h1 : navigate st p = handleRouteChange { st with hash := nh } := by
      simp only [navigate, if_neg hnh]
    have h2 : handleRouteChange { st with hash := nh } =
        { st with hash := nh, currentRoute := some pth, log := st.log ++ [hId] } := by
      simp only [handleRouteChange]
      rw [if_neg hne, if_neg (by simp [hg]), hr]
    rw [h1, h2]
    refine ⟨rfl, ?_⟩
    simp [navigate]

/-- Witness for C5: navigating twice to the profile route from the
guard-free root router fires handler 1 exactly once. -/
theorem C5_witness :
    ((if normalizePath "/profile" = "/" then "" else "#" ++ normalizePath "/profile") = routerC5.hash →
      False) ∧
    ((navigate routerC5 "/profile").log = routerC5.log ++ [1] ∧
      navigate (navigate routerC5 "/profile") "/profile" = navigate routerC5 "/profile") :=
  ⟨by decide,
    C5_idempotent_navigation.2 routerC5 "/profile" 1 (by decide) (by decide) rfl (by decide)⟩

/-- C9: getHint returns null for every absent stored value, every stored
value JSON.parse rejects, and every parsed object without a boolean
isAuthenticated field — never throwing (the embedding is a total
function) — and returns the parsed hint only when isAuthenticated is a
boolean. -/
theorem C9_hint_resilience :
    getHint none = none ∧
    getHint (some none) = none ∧
    (∀ fs : List (String × JSValue),
      (∀ b, lookupKey "isAuthenticated" fs ≠ some (JSValue.bool b)) →
      getHint (some (some (JSValue.obj fs))) = none) ∧
    (∀ (stored : Option (Option JSValue)) (v : JSValue), getHint stored = some v →
      ∃ fs b, v = JSValue.obj fs ∧ lookupKey "isAuthenticated" fs = some (JSValue.bool b)) := by
  refine ⟨rfl, rfl, ?_, ?_⟩
  · intro fs hb
    simp only [getHint, getProp]
    cases hl : lookupKey "isAuthenticated" fs with
    | none => rfl
    | some w =>
      cases w with
      | bool b => exact absurd hl (hb b)
      | null => rfl
      | num n => rfl
      | str s => rfl
      | arr es => rfl
      | obj fs2 => rfl
  · intro stored v h
    cases stored with
    | none => exact absurd h (by simp [getHint])
    | some o =>
      cases o with
      | none => exact absurd h (by simp [getHint])
      | some w =>
        cases w with
        | null => exact absurd h (by simp [getHint, getProp])
        | bool b => exact absurd h (by simp [getHint, getProp])
        | num n => exact absurd h (by simp [getHint, getProp])
        | str s => exact absurd h (by simp [getHint, getProp])
        | arr es => exact absurd h (by simp [getHint, getProp])
        | obj fs =>
          simp only [getHint, getProp] at h
          cases hl : lookupKey "isAuthenticated" fs with
          | none => rw [hl] at h; exact absurd h (by simp)
          | some w2 =>
            rw [hl] at h
            cases w2 with
            | bool b =>
              refine ⟨fs, b, ?_, hl⟩
              simpa using h.symm
            | null => exact absurd h (by simp)
            | num n => exact absurd h (by simp)
            | str s => exact absurd h (by simp)
            | arr es => exact absurd h (by simp)
            | obj fs2 => exact absurd h (by simp)

/-- Witness for C9: a parsed object without the boolean field yields
null, and a well-formed hint is returned with its boolean field. -/
theorem C9_witness :
    getHint (some (some (JSValue.obj [("x", JSValue.null)]))) = none ∧
    (∃ fs b, JSValue.obj [("isAuthenticated", JSValue.bool true)] = JSValue.obj fs ∧
      lookupKey "isAuthenticated" fs = some (JSValue.bool b)) := by
  have hbx : ∀ b, lookupKey "isAuthenticated" [("x", JSValue.null)] ≠ some (JSValue.bool b) := by
    intro b h
    simp [lookupKey] at h
  exact ⟨C9_hint_resilience.2.2.1 _ hbx,
    C9_hint_resilience.2.2.2 (some (some (JSValue.obj [("isAuthenticated", JSValue.bool true)]))) _ rfl⟩

end Salmoncow
